import Mathlib

/-!
Shallow embedding of the `TwitchClient` class from `src/twitch_client.py`
(repository Greg0109/tanalytics).

The client's mutable state (`_access_token`, `_token_expiry`,
`_rate_limit_reset`) together with the external environment (the provider's
responses to token-endpoint POSTs and to Helix data requests, and the wall
clock) is threaded explicitly through each operation as a value of type `St`.
Time is modelled as an integer number of seconds; `datetime.now()` reads
`St.now`, and `asyncio.sleep(d)` advances `St.now` by `d` (time advances only
at the points where the code itself suspends, which is the standard logical
abstraction for these claims).  Provider responses are prescribed by two
stimulus lists consumed in order.  A ghost `trace` field records the
observable actions (token exchanges, waits, dispatches, retry pauses) without
influencing control flow.
-/

/-- One HTTP response of the Helix data endpoint: its status code and the
optional `Ratelimit-Reset` header (a Unix timestamp). -/
structure Response where
  status : Nat
  ratelimitReset : Option Int
  deriving Repr, DecidableEq

/-- One HTTP response of the token endpoint: status code and, for a 2xx
response, the JSON fields `access_token` (opaque, modelled as `Nat`) and
`expires_in` (seconds). -/
structure TokenResponse where
  status : Nat
  access_token : Nat
  expires_in : Int
  deriving Repr, DecidableEq

/-- Observable actions of one public call, recorded most recent first. -/
inductive Event where
  /-- A token-endpoint exchange was issued; `ok` records whether it got a
  2xx response. -/
  | exchange (ok : Bool)
  /-- The dispatcher slept until the rate-limit deadline plus buffer. -/
  | waitReset (untilTime : Int)
  /-- One physical outbound data request, with the time it was issued and
  the status code it received. -/
  | dispatch (time : Int) (status : Nat)
  /-- The fixed 1-second sleep before a rate-limit retry. -/
  | sleepRetry (seconds : Int)
  deriving Repr, DecidableEq

/-- Client state plus environment, threaded through every operation.
`_access_token`, `_token_expiry` and `_rate_limit_reset` embed the
synonymous fields of `TwitchClient`; `now` is the wall clock;
`tokenResponses` and `dataResponses` are the provider's scripted responses;
`trace` is ghost instrumentation. -/
structure St where
  _access_token : Option Nat
  _token_expiry : Option Int
  _rate_limit_reset : Option Int
  now : Int
  tokenResponses : List TokenResponse
  dataResponses : List Response
  trace : List Event
  deriving Repr, DecidableEq

/-- Errors surfaced by a public call.  `tokenHttp` embeds the
`httpx.HTTPStatusError` raised by `response.raise_for_status()` in
`_get_access_token`; `dataHttp` the one raised in `_request`;
`invalidArgument` the `ValueError` of `get_users`; `noResponse` is the
model artifact for an exhausted stimulus list (a transport-level failure,
outside the claims' scope). -/
inductive Err where
  | invalidArgument
  | tokenHttp (status : Nat)
  | dataHttp (status : Nat)
  | noResponse
  deriving Repr, DecidableEq

/-- httpx `Response.is_success`: `raise_for_status()` returns normally
exactly for 2xx status codes. -/
def isSuccess (status : Nat) : Bool :=
  200 ≤ status && status < 300

/-- Embeds `TwitchClient._get_access_token`: POST to the token endpoint,
`raise_for_status()`, then store the token and set
`_token_expiry = now + (expires_in - 300)`.  On a non-2xx response the
exception propagates before any assignment. -/
def _get_access_token (s : St) : Except Err Nat × St :=
  match s.tokenResponses with
  | [] => (.error .noResponse, s)
  | r :: rest =>
    if isSuccess r.status then
      (.ok r.access_token,
        { s with
            tokenResponses := rest,
            _access_token := some r.access_token,
            _token_expiry := some (s.now + (r.expires_in - 300)),
            trace := .exchange true :: s.trace })
    else
      (.error (.tokenHttp r.status),
        { s with
            tokenResponses := rest,
            trace := .exchange false :: s.trace })

/-- The refresh condition of `TwitchClient._get_valid_access_token`:
`not self._access_token or (self._token_expiry and datetime.now() >= self._token_expiry)`. -/
def needsRefresh (s : St) : Bool :=
  s._access_token.isNone ||
    (match s._token_expiry with
     | some e => decide (e ≤ s.now)
     | none => false)

/-- Embeds `TwitchClient._get_valid_access_token`: refresh when the token is
absent or expired, otherwise return the cached token. -/
def _get_valid_access_token (s : St) : Except Err Nat × St :=
  if needsRefresh s then _get_access_token s
  else (.ok (s._access_token.getD 0), s)

/-- Outcome of one dispatch attempt of `_request` (one iteration of its
retry recursion).  `retry` occurs only under the code's guards
`retry_count < 1` (for 401) or `retry_count < 2` (for 429), so it carries
the resulting bound, which also bounds the recursion. -/
inductive Outcome (retry_count : Nat) where
  | success (r : Response)
  | failed (e : Err)
  | retry (h : retry_count < 2)

/-- The rate-limit gate at the top of `TwitchClient._request`: if
`_rate_limit_reset` is set and in the future, sleep
`(reset - now) + 1` seconds, i.e. resume at `reset + 1`. -/
def rlWait (s : St) : St :=
  match s._rate_limit_reset with
  | some reset =>
    if s.now < reset then
      { s with now := reset + 1, trace := .waitReset (reset + 1) :: s.trace }
    else s
  | none => s

/-- Lines 94-96 of `_request`: if the response carries a `Ratelimit-Reset`
header, store it in `_rate_limit_reset` (done before `raise_for_status()`,
hence on success and failure alike). -/
def recordHeader (resp : Response) (s : St) : St :=
  match resp.ratelimitReset with
  | some ts => { s with _rate_limit_reset := some ts }
  | none => s

/-- Lines 111-117 of `_request` (the 429 handler): re-read the
`Ratelimit-Reset` header, falling back to `now + 60` when it is absent. -/
def reset429 (resp : Response) (s : St) : St :=
  match resp.ratelimitReset with
  | some ts => { s with _rate_limit_reset := some ts }
  | none => { s with _rate_limit_reset := some (s.now + 60) }

/-- The `except httpx.HTTPStatusError` handler of `_request` together with
the success return, applied to the post-dispatch state `s4`: on 2xx return
the response; on 401 with `retry_count < 1` drop the token and retry; on
429 install the reset deadline and, while `retry_count < 2`, sleep 1 second
and retry, otherwise re-raise; re-raise every other status. -/
def handleStatus (retry_count : Nat) (resp : Response) (s4 : St) :
    Outcome retry_count × St :=
  if isSuccess resp.status then (.success resp, s4)
  else if h401 : resp.status = 401 ∧ retry_count < 1 then
    (.retry (by omega), { s4 with _access_token := none })
  else if resp.status = 429 then
    if h429 : retry_count < 2 then
      (.retry h429,
        { reset429 resp s4 with
            now := (reset429 resp s4).now + 1,
            trace := .sleepRetry 1 :: (reset429 resp s4).trace })
    else (.failed (.dataHttp 429), reset429 resp s4)
  else (.failed (.dataHttp resp.status), s4)

/-- One dispatch attempt of `TwitchClient._request`, embedded in the
source's order: obtain a valid token; wait out the rate-limit deadline
(`rlWait`); issue the request, consuming the head of `dataResponses`;
record any `Ratelimit-Reset` header unconditionally (`recordHeader`);
`raise_for_status()` and the exception handler (`handleStatus`). -/
def attemptOnce (retry_count : Nat) (s : St) : Outcome retry_count × St :=
  match _get_valid_access_token s with
  | (.error e, s1) => (.failed e, s1)
  | (.ok _, s1) =>
    match (rlWait s1).dataResponses with
    | [] => (.failed .noResponse, rlWait s1)
    | resp :: rest =>
      handleStatus retry_count resp
        (recordHeader resp
          { rlWait s1 with
              dataResponses := rest,
              trace := .dispatch (rlWait s1).now resp.status :: (rlWait s1).trace })

/-- Embeds `TwitchClient._request`: repeat dispatch attempts, incrementing
the single shared `retry_count` on every retry. -/
def _request (retry_count : Nat) (s : St) : Except Err Response × St :=
  match attemptOnce retry_count s with
  | (.success r, s1) => (.ok r, s1)
  | (.failed e, s1) => (.error e, s1)
  | (.retry _, s1) => _request (retry_count + 1) s1
termination_by 2 - retry_count
decreasing_by omega

/-- The query parameters built by `get_users`: the `id` key when `user_ids`
is non-empty (Python truthiness of a list) and the `login` key when
`user_logins` is non-empty. -/
def usersParams (user_ids user_logins : List String) : List (String × List String) :=
  (if user_ids ≠ [] then [("id", user_ids)] else []) ++
    (if user_logins ≠ [] then [("login", user_logins)] else [])

/-- Embeds `TwitchClient.get_users`: build the params, raise `ValueError`
when they are empty, otherwise issue the request (the params are forwarded
to the transport; in the model the provider's behaviour is prescribed by
`St.dataResponses`). -/
def get_users (user_ids user_logins : List String) (s : St) :
    Except Err Response × St :=
  if usersParams user_ids user_logins = [] then (.error .invalidArgument, s)
  else _request 0 s

/-- The query parameters built by `get_streams`: `user_id` / `user_login`
keys for the non-empty collections; no emptiness constraint. -/
def streamsParams (user_ids user_logins : List String) : List (String × List String) :=
  (if user_ids ≠ [] then [("user_id", user_ids)] else []) ++
    (if user_logins ≠ [] then [("user_login", user_logins)] else [])

/-- Embeds `TwitchClient.get_streams`: build the params and issue the
request unconditionally. -/
def get_streams (user_ids user_logins : List String) (s : St) :
    Except Err Response × St :=
  let _ := streamsParams user_ids user_logins
  _request 0 s

/-- Number of physical dispatch attempts recorded in a trace. -/
def dispatchCount : List Event → Nat
  | [] => 0
  | .dispatch _ _ :: es => dispatchCount es + 1
  | _ :: es => dispatchCount es

/-- Number of token-endpoint exchanges recorded in a trace. -/
def exchangeCount : List Event → Nat
  | [] => 0
  | .exchange _ :: es => exchangeCount es + 1
  | _ :: es => exchangeCount es

/-- Number of fixed 1-second retry sleeps recorded in a trace. -/
def sleepRetryCount : List Event → Nat
  | [] => 0
  | .sleepRetry _ :: es => sleepRetryCount es + 1
  | _ :: es => sleepRetryCount es

/-- A token-endpoint success handing out token `t` with a 3900-second TTL. -/
def okTok (t : Nat) : TokenResponse := ⟨200, t, 3900⟩

/-- Valid cached token, provider answers 429 (reset header in the past)
then 401: the 401 arrives with `retry_count = 1`. -/
def s429then401 : St :=
  { _access_token := some 1, _token_expiry := some 1000,
    _rate_limit_reset := none, now := 0,
    tokenResponses := [okTok 2],
    dataResponses := [⟨429, some 0⟩, ⟨401, none⟩, ⟨200, none⟩],
    trace := [] }

/-- Valid cached token, provider answers 401 then an unbroken run of 429s. -/
def s401then429s : St :=
  { _access_token := some 1, _token_expiry := some 1000,
    _rate_limit_reset := none, now := 0,
    tokenResponses := [okTok 2, okTok 3, okTok 4],
    dataResponses := [⟨401, none⟩, ⟨429, none⟩, ⟨429, none⟩, ⟨429, none⟩],
    trace := [] }

/-- Valid cached token and a 401 at the head of the response script. -/
def s401first : St :=
  { _access_token := some 1, _token_expiry := some 1000,
    _rate_limit_reset := none, now := 0,
    tokenResponses := [],
    dataResponses := [⟨401, none⟩, ⟨200, none⟩],
    trace := [] }

/-- Valid cached token and two consecutive scripted 401 responses. -/
def s401twice : St :=
  { _access_token := some 1, _token_expiry := some 1000,
    _rate_limit_reset := none, now := 0,
    tokenResponses := [okTok 2],
    dataResponses := [⟨401, none⟩, ⟨401, none⟩, ⟨200, none⟩],
    trace := [] }

/-- Valid cached token and an unbroken run of three scripted 429s, with
enough scripted token successes for every attempt. -/
def s429run : St :=
  { _access_token := some 1, _token_expiry := some 1000,
    _rate_limit_reset := none, now := 0,
    tokenResponses := [okTok 2, okTok 3, okTok 4],
    dataResponses := [⟨429, none⟩, ⟨429, none⟩, ⟨429, none⟩, ⟨200, none⟩],
    trace := [] }

/-- A sequence of public `get_streams` calls, the k-th one issued after its
listed delay (in seconds) has elapsed since the previous one. -/
def runCalls : List Int → St → St
  | [], s => s
  | g :: gs, s => runCalls gs (get_streams [] [] { s with now := s.now + g }).2

/-- No token stored yet; one scripted token success available. -/
def c4empty : St :=
  { _access_token := none, _token_expiry := none,
    _rate_limit_reset := none, now := 0,
    tokenResponses := [okTok 5],
    dataResponses := [], trace := [] }

/-- A valid cached token and two scripted headerless 2xx responses. -/
def c4valid : St :=
  { _access_token := some 9, _token_expiry := some 500,
    _rate_limit_reset := none, now := 0,
    tokenResponses := [okTok 5],
    dataResponses := [⟨200, none⟩, ⟨200, none⟩],
    trace := [] }

/-- Valid cached token; scripted single 404 carrying a reset header. -/
def c5some : St :=
  { _access_token := some 1, _token_expiry := some 1000,
    _rate_limit_reset := none, now := 0,
    tokenResponses := [], dataResponses := [⟨404, some 77⟩], trace := [] }

/-- Valid cached token; scripted single headerless 429. -/
def c5none : St :=
  { _access_token := some 1, _token_expiry := some 1000,
    _rate_limit_reset := none, now := 0,
    tokenResponses := [], dataResponses := [⟨429, none⟩], trace := [] }

/-- Valid cached token with one scripted success. -/
def c6state : St :=
  { _access_token := some 1, _token_expiry := some 100,
    _rate_limit_reset := none, now := 0,
    tokenResponses := [], dataResponses := [⟨200, none⟩], trace := [] }

/-- Valid cached token, a stored reset deadline 30 seconds ahead, one
scripted success. -/
def c7state : St :=
  { _access_token := some 1, _token_expiry := some 1000,
    _rate_limit_reset := some 30, now := 0,
    tokenResponses := [], dataResponses := [⟨200, none⟩], trace := [] }

/-- No token stored yet; the provider answers the data request with 404. -/
def c8empty : St :=
  { _access_token := none, _token_expiry := none,
    _rate_limit_reset := none, now := 0,
    tokenResponses := [okTok 7],
    dataResponses := [⟨404, none⟩], trace := [] }

/-- Valid cached token; the provider answers 404. -/
def c8valid : St :=
  { _access_token := some 1, _token_expiry := some 1000,
    _rate_limit_reset := none, now := 0,
    tokenResponses := [], dataResponses := [⟨404, none⟩], trace := [] }

/-- Stored credential present; the token endpoint answers 503. -/
def c10fail : St :=
  { _access_token := some 3, _token_expiry := some 50,
    _rate_limit_reset := none, now := 7,
    tokenResponses := [⟨503, 0, 0⟩], dataResponses := [], trace := [] }

/-- No credential; the token endpoint answers 200 with a 3600-second TTL. -/
def c10ok : St :=
  { _access_token := none, _token_expiry := none,
    _rate_limit_reset := none, now := 7,
    tokenResponses := [⟨200, 42, 3600⟩], dataResponses := [], trace := [] }

theorem dispatchCount_nil : dispatchCount [] = 0 := rfl

@[simp] theorem dispatchCount_dispatch (t : Int) (st : Nat) (es : List Event) :
    dispatchCount (.dispatch t st :: es) = dispatchCount es + 1 := rfl

@[simp] theorem dispatchCount_exchange (b : Bool) (es : List Event) :
    dispatchCount (.exchange b :: es) = dispatchCount es := rfl

@[simp] theorem dispatchCount_waitReset (u : Int) (es : List Event) :
    dispatchCount (.waitReset u :: es) = dispatchCount es := rfl

@[simp] theorem dispatchCount_sleepRetry (d : Int) (es : List Event) :
    dispatchCount (.sleepRetry d :: es) = dispatchCount es := rfl

@[simp] theorem exchangeCount_exchange (b : Bool) (es : List Event) :
    exchangeCount (.exchange b :: es) = exchangeCount es + 1 := rfl

@[simp] theorem exchangeCount_dispatch (t : Int) (st : Nat) (es : List Event) :
    exchangeCount (.dispatch t st :: es) = exchangeCount es := rfl

@[simp] theorem exchangeCount_waitReset (u : Int) (es : List Event) :
    exchangeCount (.waitReset u :: es) = exchangeCount es := rfl

@[simp] theorem exchangeCount_sleepRetry (d : Int) (es : List Event) :
    exchangeCount (.sleepRetry d :: es) = exchangeCount es := rfl

@[simp] theorem sleepRetryCount_sleepRetry (d : Int) (es : List Event) :
    sleepRetryCount (.sleepRetry d :: es) = sleepRetryCount es + 1 := rfl

@[simp] theorem sleepRetryCount_dispatch (t : Int) (st : Nat) (es : List Event) :
    sleepRetryCount (.dispatch t st :: es) = sleepRetryCount es := rfl

@[simp] theorem sleepRetryCount_exchange (b : Bool) (es : List Event) :
    sleepRetryCount (.exchange b :: es) = sleepRetryCount es := rfl

@[simp] theorem sleepRetryCount_waitReset (u : Int) (es : List Event) :
    sleepRetryCount (.waitReset u :: es) = sleepRetryCount es := rfl

@[simp] theorem rlWait_dataResponses (s : St) :
    (rlWait s).dataResponses = s.dataResponses := by
  unfold rlWait; split
  · split <;> rfl
  · rfl

@[simp] theorem rlWait_access_token (s : St) :
    (rlWait s)._access_token = s._access_token := by
  unfold rlWait; split
  · split <;> rfl
  · rfl

@[simp] theorem rlWait_token_expiry (s : St) :
    (rlWait s)._token_expiry = s._token_expiry := by
  unfold rlWait; split
  · split <;> rfl
  · rfl

@[simp] theorem rlWait_tokenResponses (s : St) :
    (rlWait s).tokenResponses = s.tokenResponses := by
  unfold rlWait; split
  · split <;> rfl
  · rfl

@[simp] theorem rlWait_dispatchCount (s : St) :
    dispatchCount (rlWait s).trace = dispatchCount s.trace := by
  unfold rlWait; split
  · split
    · simp
    · rfl
  · rfl

@[simp] theorem rlWait_sleepRetryCount (s : St) :
    sleepRetryCount (rlWait s).trace = sleepRetryCount s.trace := by
  unfold rlWait; split
  · split
    · simp
    · rfl
  · rfl

@[simp] theorem rlWait_exchangeCount (s : St) :
    exchangeCount (rlWait s).trace = exchangeCount s.trace := by
  unfold rlWait; split
  · split
    · simp
    · rfl
  · rfl

theorem rlWait_of_none (s : St) (h : s._rate_limit_reset = none) : rlWait s = s := by
  unfold rlWait; rw [h]

theorem rlWait_of_past (s : St) (T : Int) (h : s._rate_limit_reset = some T)
    (h2 : ¬ s.now < T) : rlWait s = s := by
  unfold rlWait; rw [h]; simp [h2]

theorem rlWait_of_future (s : St) (T : Int) (h : s._rate_limit_reset = some T)
    (h2 : s.now < T) :
    rlWait s = { s with now := T + 1, trace := .waitReset (T + 1) :: s.trace } := by
  unfold rlWait; rw [h]; simp [h2]

theorem needsRefresh_false_of_valid (s : St) (t : Nat) (e : Int)
    (h1 : s._access_token = some t) (h2 : s._token_expiry = some e)
    (h3 : s.now < e) : needsRefresh s = false := by
  simp [needsRefresh, h1, h2]; omega

theorem getValid_noRefresh (s : St) (h : needsRefresh s = false) :
    _get_valid_access_token s = (.ok (s._access_token.getD 0), s) := by
  unfold _get_valid_access_token; rw [h]; rfl

theorem getValid_refresh_ok (s : St) (tr : TokenResponse) (trs : List TokenResponse)
    (h : needsRefresh s = true) (ht : s.tokenResponses = tr :: trs)
    (hok : isSuccess tr.status = true) :
    _get_valid_access_token s =
      (.ok tr.access_token,
        { s with
            tokenResponses := trs,
            _access_token := some tr.access_token,
            _token_expiry := some (s.now + (tr.expires_in - 300)),
            trace := .exchange true :: s.trace }) := by
  unfold _get_valid_access_token _get_access_token
  rw [h, ht]
  simp [hok]

theorem recordHeader_some (resp : Response) (s : St) (ts : Int)
    (h : resp.ratelimitReset = some ts) :
    recordHeader resp s = { s with _rate_limit_reset := some ts } := by
  unfold recordHeader; rw [h]

theorem recordHeader_none (resp : Response) (s : St)
    (h : resp.ratelimitReset = none) : recordHeader resp s = s := by
  unfold recordHeader; rw [h]

@[simp] theorem recordHeader_access_token (resp : Response) (s : St) :
    (recordHeader resp s)._access_token = s._access_token := by
  unfold recordHeader; split <;> rfl

@[simp] theorem recordHeader_token_expiry (resp : Response) (s : St) :
    (recordHeader resp s)._token_expiry = s._token_expiry := by
  unfold recordHeader; split <;> rfl

@[simp] theorem recordHeader_now (resp : Response) (s : St) :
    (recordHeader resp s).now = s.now := by
  unfold recordHeader; split <;> rfl

@[simp] theorem recordHeader_trace (resp : Response) (s : St) :
    (recordHeader resp s).trace = s.trace := by
  unfold recordHeader; split <;> rfl

@[simp] theorem recordHeader_dataResponses (resp : Response) (s : St) :
    (recordHeader resp s).dataResponses = s.dataResponses := by
  unfold recordHeader; split <;> rfl

@[simp] theorem recordHeader_tokenResponses (resp : Response) (s : St) :
    (recordHeader resp s).tokenResponses = s.tokenResponses := by
  unfold recordHeader; split <;> rfl

theorem reset429_some (resp : Response) (s : St) (ts : Int)
    (h : resp.ratelimitReset = some ts) :
    reset429 resp s = { s with _rate_limit_reset := some ts } := by
  unfold reset429; rw [h]

theorem reset429_none (resp : Response) (s : St)
    (h : resp.ratelimitReset = none) :
    reset429 resp s = { s with _rate_limit_reset := some (s.now + 60) } := by
  unfold reset429; rw [h]

@[simp] theorem reset429_access_token (resp : Response) (s : St) :
    (reset429 resp s)._access_token = s._access_token := by
  unfold reset429; split <;> rfl

@[simp] theorem reset429_token_expiry (resp : Response) (s : St) :
    (reset429 resp s)._token_expiry = s._token_expiry := by
  unfold reset429; split <;> rfl

@[simp] theorem reset429_now (resp : Response) (s : St) :
    (reset429 resp s).now = s.now := by
  unfold reset429; split <;> rfl

@[simp] theorem reset429_trace (resp : Response) (s : St) :
    (reset429 resp s).trace = s.trace := by
  unfold reset429; split <;> rfl

@[simp] theorem reset429_dataResponses (resp : Response) (s : St) :
    (reset429 resp s).dataResponses = s.dataResponses := by
  unfold reset429; split <;> rfl

@[simp] theorem reset429_tokenResponses (resp : Response) (s : St) :
    (reset429 resp s).tokenResponses = s.tokenResponses := by
  unfold reset429; split <;> rfl

/-- The status handler never issues a request itself: the dispatch count of
its result equals that of its input state. -/
theorem handleStatus_dispatchCount (rc : Nat) (resp : Response) (s4 : St) :
    dispatchCount (handleStatus rc resp s4).2.trace = dispatchCount s4.trace := by
  unfold handleStatus
  split
  · rfl
  · split
    · rfl
    · split
      · split <;> simp
      · rfl

/-- The status handler never performs a token exchange. -/
theorem handleStatus_exchangeCount (rc : Nat) (resp : Response) (s4 : St) :
    exchangeCount (handleStatus rc resp s4).2.trace = exchangeCount s4.trace := by
  unfold handleStatus
  split
  · rfl
  · split
    · rfl
    · split
      · split <;> simp
      · rfl

/-- The status handler consumes no response. -/
theorem handleStatus_dataResponses (rc : Nat) (resp : Response) (s4 : St) :
    (handleStatus rc resp s4).2.dataResponses = s4.dataResponses := by
  unfold handleStatus
  split
  · rfl
  · split
    · rfl
    · split
      · split <;> simp
      · simp

/-- State invariants of `_get_valid_access_token`: it never touches the
clock, the rate-limit deadline or the data-response stream, never records a
dispatch or a retry sleep, and consumes at most the head token response. -/
theorem getValid_state (s : St) :
    (_get_valid_access_token s).2.now = s.now ∧
      (_get_valid_access_token s).2._rate_limit_reset = s._rate_limit_reset ∧
      (_get_valid_access_token s).2.dataResponses = s.dataResponses ∧
      dispatchCount (_get_valid_access_token s).2.trace = dispatchCount s.trace ∧
      sleepRetryCount (_get_valid_access_token s).2.trace = sleepRetryCount s.trace ∧
      ((_get_valid_access_token s).2.tokenResponses = s.tokenResponses ∨
        (_get_valid_access_token s).2.tokenResponses = s.tokenResponses.tail) := by
  unfold _get_valid_access_token _get_access_token
  split
  · split
    · exact ⟨rfl, rfl, rfl, rfl, rfl, .inl rfl⟩
    · rename_i tr trs heq
      split
      · exact ⟨rfl, rfl, rfl, by simp, by simp, .inr (by simp [heq])⟩
      · exact ⟨rfl, rfl, rfl, by simp, by simp, .inr (by simp [heq])⟩
  · exact ⟨rfl, rfl, rfl, rfl, rfl, .inl rfl⟩

/-- When every scripted token response is a success and at least one is
left, `_get_valid_access_token` cannot fail. -/
theorem getValid_ok_of_tokens (s : St)
    (h : ∀ tr ∈ s.tokenResponses, isSuccess tr.status = true)
    (hne : s.tokenResponses ≠ []) :
    ∃ tok s1, _get_valid_access_token s = (.ok tok, s1) := by
  unfold _get_valid_access_token _get_access_token
  split
  · split
    · rename_i heq
      exact absurd heq hne
    · rename_i tr trs heq
      split
      · exact ⟨_, _, rfl⟩
      · rename_i hbad
        exact absurd (h tr (by rw [heq]; exact List.mem_cons_self tr trs)) hbad
  · exact ⟨_, _, rfl⟩

/-- Each dispatch attempt records at most one dispatch. -/
theorem attemptOnce_dispatch_le (rc : Nat) (s : St) :
    dispatchCount (attemptOnce rc s).2.trace ≤ dispatchCount s.trace + 1 := by
  have h1 := (getValid_state s).2.2.2.1
  unfold attemptOnce
  split
  · rename_i e s1 heq
    rw [heq] at h1
    dsimp only at h1 ⊢
    omega
  · rename_i tok s1 heq
    rw [heq] at h1
    dsimp only at h1
    split
    · dsimp only
      simp only [rlWait_dispatchCount]
      omega
    · rename_i resp rest hd
      rw [handleStatus_dispatchCount]
      simp only [recordHeader_trace, dispatchCount_dispatch, rlWait_dispatchCount]
      omega

/-- The shared-counter retry recursion performs at most `1 + (2 - rc)`
further dispatch attempts when entered with `retry_count = rc`. -/
theorem request_dispatch_le (rc : Nat) (s : St) :
    dispatchCount (_request rc s).2.trace ≤ dispatchCount s.trace + 1 + (2 - rc) := by
  induction rc, s using _request.induct with
  | case1 rc s r s1 heq =>
    have h1 := attemptOnce_dispatch_le rc s
    rw [heq] at h1
    dsimp only at h1
    rw [_request, heq]
    dsimp only
    omega
  | case2 rc s e s1 heq =>
    have h1 := attemptOnce_dispatch_le rc s
    rw [heq] at h1
    dsimp only at h1
    rw [_request, heq]
    dsimp only
    omega
  | case3 rc s h s1 heq ih =>
    have h1 := attemptOnce_dispatch_le rc s
    rw [heq] at h1
    dsimp only at h1
    rw [_request, heq]
    dsimp only
    omega

/-- One unfolding of `_request` when the attempt asks for a retry. -/
theorem request_step_retry (rc : Nat) (s : St) (h : rc < 2) (s' : St)
    (ha : attemptOnce rc s = (.retry h, s')) :
    _request rc s = _request (rc + 1) s' := by
  rw [_request, ha]

/-- One unfolding of `_request` when the attempt raises. -/
theorem request_step_failed (rc : Nat) (s : St) (e : Err) (s' : St)
    (ha : attemptOnce rc s = (.failed e, s')) :
    _request rc s = (.error e, s') := by
  rw [_request, ha]

/-- One unfolding of `_request` when the attempt succeeds. -/
theorem request_step_success (rc : Nat) (s : St) (r : Response) (s' : St)
    (ha : attemptOnce rc s = (.success r, s')) :
    _request rc s = (.ok r, s') := by
  rw [_request, ha]

/-- An attempt whose token fetch succeeds dispatches the head data response
and hands the updated state to the status handler. -/
theorem attemptOnce_eq_handle (rc : Nat) (s : St) (tok : Nat) (s1 : St)
    (resp : Response) (rest : List Response)
    (hf : _get_valid_access_token s = (.ok tok, s1))
    (hd : s1.dataResponses = resp :: rest) :
    attemptOnce rc s =
      handleStatus rc resp
        (recordHeader resp
          { rlWait s1 with
              dataResponses := rest,
              trace := .dispatch (rlWait s1).now resp.status :: (rlWait s1).trace }) := by
  unfold attemptOnce
  rw [hf]
  have h2 : (rlWait s1).dataResponses = resp :: rest := by
    rw [rlWait_dataResponses, hd]
  dsimp only
  split
  · rename_i heq
    rw [h2] at heq
    exact absurd heq (by simp)
  · rename_i r2 rest2 heq
    rw [h2] at heq
    injection heq with hh ht
    subst hh
    subst ht
    rfl

theorem handleStatus_success_eq (rc : Nat) (resp : Response) (s4 : St)
    (hst : isSuccess resp.status = true) :
    handleStatus rc resp s4 = (.success resp, s4) := by
  unfold handleStatus
  rw [if_pos hst]

theorem handleStatus_401_first (rc : Nat) (resp : Response) (s4 : St)
    (hst : resp.status = 401) (hrc : rc < 1) :
    handleStatus rc resp s4 =
      (.retry (by omega), { s4 with _access_token := none }) := by
  unfold handleStatus
  rw [if_neg (by simp [hst, isSuccess])]
  rw [dif_pos ⟨hst, hrc⟩]

theorem handleStatus_401_later (rc : Nat) (resp : Response) (s4 : St)
    (hst : resp.status = 401) (hrc : ¬ rc < 1) :
    handleStatus rc resp s4 = (.failed (.dataHttp 401), s4) := by
  unfold handleStatus
  rw [if_neg (by simp [hst, isSuccess])]
  rw [dif_neg (by rintro ⟨-, h⟩; exact hrc h)]
  rw [if_neg (by rw [hst]; omega)]
  rw [hst]

theorem handleStatus_429_retry (rc : Nat) (resp : Response) (s4 : St)
    (hst : resp.status = 429) (hrc : rc < 2) :
    handleStatus rc resp s4 =
      (.retry hrc,
        { reset429 resp s4 with
            now := (reset429 resp s4).now + 1,
            trace := .sleepRetry 1 :: (reset429 resp s4).trace }) := by
  unfold handleStatus
  rw [if_neg (by simp [hst, isSuccess])]
  rw [dif_neg (by rintro ⟨h, -⟩; rw [hst] at h; omega)]
  rw [if_pos hst]
  rw [dif_pos hrc]

theorem handleStatus_429_fail (rc : Nat) (resp : Response) (s4 : St)
    (hst : resp.status = 429) (hrc : ¬ rc < 2) :
    handleStatus rc resp s4 = (.failed (.dataHttp 429), reset429 resp s4) := by
  unfold handleStatus
  rw [if_neg (by simp [hst, isSuccess])]
  rw [dif_neg (by rintro ⟨h, -⟩; rw [hst] at h; omega)]
  rw [if_pos hst]
  rw [dif_neg hrc]

theorem handleStatus_raise (rc : Nat) (resp : Response) (s4 : St)
    (hst : isSuccess resp.status = false)
    (h401 : ¬ (resp.status = 401 ∧ rc < 1))
    (h429 : resp.status ≠ 429) :
    handleStatus rc resp s4 = (.failed (.dataHttp resp.status), s4) := by
  unfold handleStatus
  rw [if_neg (by simp [hst])]
  rw [dif_neg h401]
  rw [if_neg h429]

/-- C2, counterexample: on `s429then401` the second dispatch receives a 401,
yet the stored credential is NOT discarded (it stays `some 1`), no retry
with a fresh token is attempted (the scripted third response is never
consumed), and the 401 is surfaced — refuting "whenever a dispatched
request receives a 401 ... the stored credential is discarded ... and
exactly one retry ... regardless of how many attempts preceded the first
401". -/
theorem C2_cex :
    (get_users ["u"] [] s429then401).1 = .error (.dataHttp 401) ∧
      (get_users ["u"] [] s429then401).2._access_token = some 1 ∧
      (get_users ["u"] [] s429then401).2.dataResponses = [⟨200, none⟩] ∧
      (get_users ["u"] [] s429then401).2.tokenResponses = [okTok 2] := by
  have e1 : attemptOnce 0 s429then401 =
      (.retry (by omega), (attemptOnce 0 s429then401).2) := rfl
  have r1 := request_step_retry 0 s429then401 (by omega) _ e1
  have e2 : attemptOnce 1 (attemptOnce 0 s429then401).2 =
      (.failed (.dataHttp 401), (attemptOnce 1 (attemptOnce 0 s429then401).2).2) := rfl
  have r2 := request_step_failed 1 _ _ _ e2
  have hg : get_users ["u"] [] s429then401 = _request 0 s429then401 := rfl
  rw [hg, r1, r2]
  exact ⟨rfl, rfl, rfl, rfl⟩

/-- C2, amended: (a) a 401 received on a call whose attempts so far used no
retry (the first dispatch, `retry_count = 0`) discards the credential and
triggers a retry; (b) a call whose first two dispatches both receive 401
performs one token exchange and exactly two dispatch attempts, surfacing
the 401 with no third attempt; (c) a 401 received on an attempt with
`retry_count ≥ 1` (i.e. after any prior retry) is surfaced immediately and
the credential held after the token fetch is left in place. -/
theorem C2_reactive_auth_retry :
    (∀ (s : St) (tok : Nat) (s1 : St) (resp : Response) (rest : List Response),
      _get_valid_access_token s = (.ok tok, s1) →
      s1.dataResponses = resp :: rest →
      resp.status = 401 →
      ∃ (h : 0 < 2) (s' : St), attemptOnce 0 s = (.retry h, s') ∧
        s'._access_token = none ∧ s'.dataResponses = rest) ∧
    (∀ (s : St) (t : Nat) (e : Int) (tr : TokenResponse)
        (trs : List TokenResponse) (hd2 : Option Int) (rest : List Response),
      s._access_token = some t → s._token_expiry = some e → s.now < e →
      s._rate_limit_reset = none →
      s.dataResponses = ⟨401, none⟩ :: ⟨401, hd2⟩ :: rest →
      s.tokenResponses = tr :: trs → isSuccess tr.status = true →
      (_request 0 s).1 = .error (.dataHttp 401) ∧
        (_request 0 s).2.dataResponses = rest ∧
        dispatchCount (_request 0 s).2.trace = dispatchCount s.trace + 2 ∧
        exchangeCount (_request 0 s).2.trace = exchangeCount s.trace + 1) ∧
    (∀ (rc : Nat) (s : St) (tok : Nat) (s1 : St) (resp : Response)
        (rest : List Response),
      1 ≤ rc →
      _get_valid_access_token s = (.ok tok, s1) →
      s1.dataResponses = resp :: rest →
      resp.status = 401 →
      (attemptOnce rc s).1 = .failed (.dataHttp 401) ∧
        (attemptOnce rc s).2._access_token = s1._access_token ∧
        (attemptOnce rc s).2.dataResponses = rest) := by
  refine ⟨?_, ?_, ?_⟩
  · intro s tok s1 resp rest hf hd hst
    have ha := attemptOnce_eq_handle 0 s tok s1 resp rest hf hd
    rw [handleStatus_401_first 0 resp _ hst (by omega)] at ha
    exact ⟨by omega, _, ha, rfl, by simp⟩
  · intro s t e tr trs hd2 rest htok hexp hnow hrl hdr htr hok
    have hnr1 : needsRefresh s = false := needsRefresh_false_of_valid s t e htok hexp hnow
    have hf1 := getValid_noRefresh s hnr1
    have ha1 := attemptOnce_eq_handle 0 s (s._access_token.getD 0) s
      ⟨401, none⟩ (⟨401, hd2⟩ :: rest) hf1 hdr
    rw [rlWait_of_none s hrl, recordHeader_none _ _ rfl] at ha1
    rw [handleStatus_401_first 0 _ _ rfl (by omega)] at ha1
    have hreq1 := request_step_retry 0 s (by omega) _ ha1
    set s2 : St :=
      { s with
          dataResponses := ⟨401, hd2⟩ :: rest,
          trace := .dispatch s.now 401 :: s.trace,
          _access_token := none } with hs2
    have hnr2 : needsRefresh s2 = true := by
      simp [needsRefresh, hs2]
    have hts2 : s2.tokenResponses = tr :: trs := htr
    have hf2 := getValid_refresh_ok s2 tr trs hnr2 hts2 hok
    have ha2 := attemptOnce_eq_handle 1 s2 tr.access_token _ ⟨401, hd2⟩ rest hf2 rfl
    rw [handleStatus_401_later 1 _ _ rfl (by omega)] at ha2
    have hreq2 := request_step_failed 1 s2 _ _ ha2
    rw [hreq1, hreq2]
    refine ⟨rfl, by simp, ?_, ?_⟩
    · simp [hs2]
    · simp [hs2]
  · intro rc s tok s1 resp rest hrc hf hd hst
    have ha := attemptOnce_eq_handle rc s tok s1 resp rest hf hd
    rw [handleStatus_401_later rc resp _ hst (by omega)] at ha
    rw [ha]
    exact ⟨rfl, by simp, by simp⟩

/-- C1, counterexample: on `s401then429s` one 401 retry is used, after which
the run of 429 responses is retried only ONCE (three dispatch attempts in
total, the fourth scripted response never consumed) before the rate-limit
failure is surfaced — refuting the claimed independent budgets, under which
the 429 run would still get two retries after the 401 retry. -/
theorem C1_cex :
    (get_users ["u"] [] s401then429s).1 = .error (.dataHttp 429) ∧
      (get_users ["u"] [] s401then429s).2.dataResponses = [⟨429, none⟩] ∧
      dispatchCount (get_users ["u"] [] s401then429s).2.trace = 3 := by
  have e1 : attemptOnce 0 s401then429s =
      (.retry (by omega), (attemptOnce 0 s401then429s).2) := rfl
  have r1 := request_step_retry 0 s401then429s (by omega) _ e1
  have e2 : attemptOnce 1 (attemptOnce 0 s401then429s).2 =
      (.retry (by omega), (attemptOnce 1 (attemptOnce 0 s401then429s).2).2) := rfl
  have r2 := request_step_retry 1 _ (by omega) _ e2
  have e3 : attemptOnce 2 (attemptOnce 1 (attemptOnce 0 s401then429s).2).2 =
      (.failed (.dataHttp 429),
        (attemptOnce 2 (attemptOnce 1 (attemptOnce 0 s401then429s).2).2).2) := rfl
  have r3 := request_step_failed 2 _ _ _ e3
  have hg : get_users ["u"] [] s401then429s = _request 0 s401then429s := rfl
  rw [hg, r1, r2, r3]
  exact ⟨rfl, rfl, rfl⟩

/-- C1, amended: the two retry budgets share the single counter
`retry_count`, which increments on every retry; a 401 is retried only while
the counter is 0 and a 429 only while it is below 2.  Consequently, after
one 401 retry a subsequent run of 429 responses is retried only once more
within the same call: the call makes exactly three dispatch attempts and
surfaces the rate-limit failure. -/
theorem C1_shared_budget (s : St) (t : Nat) (e : Int) (tr : TokenResponse)
    (trs : List TokenResponse) (rest : List Response)
    (htok : s._access_token = some t) (hexp : s._token_expiry = some e)
    (hnow : s.now < e) (hrl : s._rate_limit_reset = none)
    (hdr : s.dataResponses = ⟨401, none⟩ :: ⟨429, none⟩ :: ⟨429, none⟩ :: rest)
    (htr : s.tokenResponses = tr :: trs) (hok : isSuccess tr.status = true)
    (httl : 301 < tr.expires_in) :
    (_request 0 s).1 = .error (.dataHttp 429) ∧
      (_request 0 s).2.dataResponses = rest ∧
      dispatchCount (_request 0 s).2.trace = dispatchCount s.trace + 3 ∧
      sleepRetryCount (_request 0 s).2.trace = sleepRetryCount s.trace + 1 ∧
      exchangeCount (_request 0 s).2.trace = exchangeCount s.trace + 1 := by
  have hnr1 : needsRefresh s = false := needsRefresh_false_of_valid s t e htok hexp hnow
  have hf1 := getValid_noRefresh s hnr1
  have ha1 := attemptOnce_eq_handle 0 s (s._access_token.getD 0) s
    ⟨401, none⟩ (⟨429, none⟩ :: ⟨429, none⟩ :: rest) hf1 hdr
  rw [rlWait_of_none s hrl, recordHeader_none _ _ rfl] at ha1
  rw [handleStatus_401_first 0 _ _ rfl (by omega)] at ha1
  have hreq1 := request_step_retry 0 s (by omega) _ ha1
  set s2 : St :=
    { s with
        dataResponses := ⟨429, none⟩ :: ⟨429, none⟩ :: rest,
        trace := .dispatch s.now 401 :: s.trace,
        _access_token := none } with hs2
  have hnr2 : needsRefresh s2 = true := by
    simp [needsRefresh, hs2]
  have hf2 := getValid_refresh_ok s2 tr trs hnr2 htr hok
  set s3 : St :=
    { _access_token := some tr.access_token,
      _token_expiry := some (s2.now + (tr.expires_in - 300)),
      _rate_limit_reset := s2._rate_limit_reset,
      now := s2.now,
      tokenResponses := trs,
      dataResponses := s2.dataResponses,
      trace := .exchange true :: s2.trace } with hs3
  have hrl3 : s3._rate_limit_reset = none := hrl
  have ha2 := attemptOnce_eq_handle 1 s2 tr.access_token s3
    ⟨429, none⟩ (⟨429, none⟩ :: rest) hf2 rfl
  rw [rlWait_of_none s3 hrl3] at ha2
  rw [recordHeader_none _ _ rfl] at ha2
  rw [handleStatus_429_retry 1 _ _ rfl (by omega)] at ha2
  rw [reset429_none _ _ rfl] at ha2
  have hreq2 := request_step_retry 1 s2 (by omega) _ ha2
  set s5 : St :=
    { _access_token := some tr.access_token,
      _token_expiry := some (s2.now + (tr.expires_in - 300)),
      _rate_limit_reset := some (s2.now + 60),
      now := s2.now + 1,
      tokenResponses := trs,
      dataResponses := ⟨429, none⟩ :: rest,
      trace := .sleepRetry 1 :: .dispatch s2.now 429 :: .exchange true :: s2.trace } with hs5
  have hnr5 : needsRefresh s5 = false := by
    rw [hs5]
    simp [needsRefresh]
    omega
  have hf5 := getValid_noRefresh s5 hnr5
  have ha3 := attemptOnce_eq_handle 2 s5 (s5._access_token.getD 0) s5
    ⟨429, none⟩ rest hf5 rfl
  rw [rlWait_of_future s5 (s2.now + 60) rfl
    (show s2.now + 1 < s2.now + 60 by omega)] at ha3
  rw [recordHeader_none _ _ rfl] at ha3
  rw [handleStatus_429_fail 2 _ _ rfl (by omega)] at ha3
  rw [reset429_none _ _ rfl] at ha3
  have hreq3 := request_step_failed 2 s5 _ _ ha3
  rw [hreq1, hreq2, hreq3]
  refine ⟨rfl, by simp [hs5], ?_, ?_, ?_⟩
  · simp [hs5, hs2]
  · simp [hs5, hs2]
  · simp [hs5, hs2]

/-- C1, witness: the amended theorem applied to `s401then429s`. -/
theorem C1_witness :
    (_request 0 s401then429s).1 = .error (.dataHttp 429) ∧
      (_request 0 s401then429s).2.dataResponses = [⟨429, none⟩] ∧
      dispatchCount (_request 0 s401then429s).2.trace =
        dispatchCount s401then429s.trace + 3 ∧
      sleepRetryCount (_request 0 s401then429s).2.trace =
        sleepRetryCount s401then429s.trace + 1 ∧
      exchangeCount (_request 0 s401then429s).2.trace =
        exchangeCount s401then429s.trace + 1 :=
  C1_shared_budget s401then429s 1 1000 (okTok 2) [okTok 3, okTok 4]
    [⟨429, none⟩] rfl rfl (by decide) rfl rfl rfl rfl (by decide)

/-- C2, witness: the amended theorem applied to `s401first` (parts a and c)
and `s401twice` (part b). -/
theorem C2_witness :
    (∃ (h : 0 < 2) (s' : St), attemptOnce 0 s401first = (.retry h, s') ∧
        s'._access_token = none ∧ s'.dataResponses = [⟨200, none⟩]) ∧
      ((_request 0 s401twice).1 = .error (.dataHttp 401) ∧
        (_request 0 s401twice).2.dataResponses = [⟨200, none⟩] ∧
        dispatchCount (_request 0 s401twice).2.trace =
          dispatchCount s401twice.trace + 2 ∧
        exchangeCount (_request 0 s401twice).2.trace =
          exchangeCount s401twice.trace + 1) ∧
      ((attemptOnce 1 s401first).1 = .failed (.dataHttp 401) ∧
        (attemptOnce 1 s401first).2._access_token = some 1 ∧
        (attemptOnce 1 s401first).2.dataResponses = [⟨200, none⟩]) :=
  ⟨C2_reactive_auth_retry.1 s401first 1 s401first ⟨401, none⟩ [⟨200, none⟩]
      rfl rfl rfl,
    C2_reactive_auth_retry.2.1 s401twice 1 1000 (okTok 2) [] none
      [⟨200, none⟩] rfl rfl (by decide) rfl rfl rfl (by decide),
    C2_reactive_auth_retry.2.2 1 s401first 1 s401first ⟨401, none⟩
      [⟨200, none⟩] (by omega) rfl rfl rfl⟩

/-- A 429 received while `retry_count < 2` leads to a retry; the attempt
consumed one data response, recorded one dispatch and one 1-second retry
sleep, and consumed at most one (successful) token response. -/
theorem attemptOnce_429_retry (rc : Nat) (s : St) (resp : Response)
    (rest : List Response) (hrc : rc < 2)
    (htok : ∀ tr ∈ s.tokenResponses, isSuccess tr.status = true)
    (hne : s.tokenResponses ≠ [])
    (hd : s.dataResponses = resp :: rest) (hst : resp.status = 429) :
    ∃ s', attemptOnce rc s = (.retry hrc, s') ∧
      s'.dataResponses = rest ∧
      dispatchCount s'.trace = dispatchCount s.trace + 1 ∧
      sleepRetryCount s'.trace = sleepRetryCount s.trace + 1 ∧
      (∀ tr ∈ s'.tokenResponses, isSuccess tr.status = true) ∧
      s.tokenResponses.length ≤ s'.tokenResponses.length + 1 := by
  obtain ⟨tok, s1, hf⟩ := getValid_ok_of_tokens s htok hne
  have hst1 := getValid_state s
  rw [hf] at hst1
  dsimp only at hst1
  obtain ⟨-, -, hdata1, hdc1, hsc1, htk1⟩ := hst1
  have ha := attemptOnce_eq_handle rc s tok s1 resp rest hf (by rw [hdata1, hd])
  rw [handleStatus_429_retry rc resp _ hst hrc] at ha
  refine ⟨_, ha, by simp, ?_, ?_, ?_, ?_⟩
  · simp [hdc1]
  · simp [hsc1]
  · intro tr htr
    have : tr ∈ s1.tokenResponses := by simpa using htr
    rcases htk1 with h | h
    · exact htok tr (h ▸ this)
    · exact htok tr (List.mem_of_mem_tail (h ▸ this))
  · simp only [reset429_tokenResponses, recordHeader_tokenResponses,
      rlWait_tokenResponses]
    rcases htk1 with h | h
    · rw [h]
      omega
    · rw [h]
      cases hc : s.tokenResponses with
      | nil => exact absurd hc hne
      | cons a l => simp [hc]

/-- A 429 received when `retry_count` has reached 2 surfaces the rate-limit
failure with no further retry. -/
theorem attemptOnce_429_fail (rc : Nat) (s : St) (resp : Response)
    (rest : List Response) (hrc : ¬ rc < 2)
    (htok : ∀ tr ∈ s.tokenResponses, isSuccess tr.status = true)
    (hne : s.tokenResponses ≠ [])
    (hd : s.dataResponses = resp :: rest) (hst : resp.status = 429) :
    ∃ s', attemptOnce rc s = (.failed (.dataHttp 429), s') ∧
      s'.dataResponses = rest ∧
      dispatchCount s'.trace = dispatchCount s.trace + 1 ∧
      sleepRetryCount s'.trace = sleepRetryCount s.trace := by
  obtain ⟨tok, s1, hf⟩ := getValid_ok_of_tokens s htok hne
  have hst1 := getValid_state s
  rw [hf] at hst1
  dsimp only at hst1
  obtain ⟨-, -, hdata1, hdc1, hsc1, -⟩ := hst1
  have ha := attemptOnce_eq_handle rc s tok s1 resp rest hf (by rw [hdata1, hd])
  rw [handleStatus_429_fail rc resp _ hst hrc] at ha
  refine ⟨_, ha, by simp, ?_, ?_⟩
  · simp [hdc1]
  · simp [hsc1]

/-- C3: a call whose first three dispatches all receive 429 performs
exactly three dispatch attempts (two retries), records the fixed 1-second
retry sleep before each of the two retries, and surfaces the rate-limit
failure; the fourth scripted response (and any later one) is never
consumed, i.e. a third retry is never issued. -/
theorem C3_rate_limit_cap (s : St) (r1 r2 r3 : Response) (rest : List Response)
    (hdr : s.dataResponses = r1 :: r2 :: r3 :: rest)
    (h1 : r1.status = 429) (h2 : r2.status = 429) (h3 : r3.status = 429)
    (htok : ∀ tr ∈ s.tokenResponses, isSuccess tr.status = true)
    (hlen : 3 ≤ s.tokenResponses.length) :
    (_request 0 s).1 = .error (.dataHttp 429) ∧
      (_request 0 s).2.dataResponses = rest ∧
      dispatchCount (_request 0 s).2.trace = dispatchCount s.trace + 3 ∧
      sleepRetryCount (_request 0 s).2.trace = sleepRetryCount s.trace + 2 := by
  have hne : s.tokenResponses ≠ [] := by
    intro hc
    rw [hc] at hlen
    simp at hlen
  obtain ⟨sA, haA, hdA, hcA, hsA, htokA, hlA⟩ :=
    attemptOnce_429_retry 0 s r1 (r2 :: r3 :: rest) (by omega) htok hne hdr h1
  have hreq1 := request_step_retry 0 s (by omega) sA haA
  have hneA : sA.tokenResponses ≠ [] := by
    intro hc
    rw [hc] at hlA
    simp at hlA
    omega
  obtain ⟨sB, haB, hdB, hcB, hsB, htokB, hlB⟩ :=
    attemptOnce_429_retry 1 sA r2 (r3 :: rest) (by omega) htokA hneA hdA h2
  have hreq2 := request_step_retry 1 sA (by omega) sB haB
  have hneB : sB.tokenResponses ≠ [] := by
    intro hc
    rw [hc] at hlB
    simp at hlB
    omega
  obtain ⟨sC, haC, hdC, hcC, hsC⟩ :=
    attemptOnce_429_fail 2 sB r3 rest (by omega) htokB hneB hdB h3
  have hreq3 := request_step_failed 2 sB _ sC haC
  rw [hreq1, hreq2, hreq3]
  dsimp only
  exact ⟨rfl, hdC, by omega, by omega⟩

/-- C3, witness: the theorem applied to `s429run`. -/
theorem C3_witness :
    (_request 0 s429run).1 = .error (.dataHttp 429) ∧
      (_request 0 s429run).2.dataResponses = [⟨200, none⟩] ∧
      dispatchCount (_request 0 s429run).2.trace = dispatchCount s429run.trace + 3 ∧
      sleepRetryCount (_request 0 s429run).2.trace = sleepRetryCount s429run.trace + 2 :=
  C3_rate_limit_cap s429run ⟨429, none⟩ ⟨429, none⟩ ⟨429, none⟩ [⟨200, none⟩]
    rfl rfl rfl rfl (by decide) (by decide)

/-- The code's refresh condition, spelled as the spec states it: no token
stored, or `now >= expiresAt`. -/
theorem needsRefresh_iff (s : St) :
    needsRefresh s = true ↔
      (s._access_token = none ∨ ∃ e, s._token_expiry = some e ∧ e ≤ s.now) := by
  rcases hA : s._access_token with _ | a <;>
    rcases hE : s._token_expiry with _ | e2 <;>
      simp [needsRefresh, hA, hE]

/-- A call whose state needs no refresh, sees no rate-limit deadline and is
answered by a headerless 2xx response returns that response after exactly
one dispatch. -/
theorem request_success_step (s : St) (r : Response) (rest : List Response)
    (hnr : needsRefresh s = false) (hrl : s._rate_limit_reset = none)
    (hd : s.dataResponses = r :: rest) (hok : isSuccess r.status = true)
    (hh : r.ratelimitReset = none) :
    _request 0 s =
      (.ok r,
        { s with
            dataResponses := rest,
            trace := .dispatch s.now r.status :: s.trace }) := by
  have hf := getValid_noRefresh s hnr
  have ha := attemptOnce_eq_handle 0 s (s._access_token.getD 0) s r rest hf hd
  rw [rlWait_of_none s hrl, recordHeader_none _ _ hh] at ha
  rw [handleStatus_success_eq 0 r _ hok] at ha
  exact request_step_success 0 s r _ ha

/-- While the cached token stays within its validity window, a whole
sequence of calls issues no token exchange and keeps the cached credential. -/
theorem runCalls_cached (gaps : List Int) (s : St) (t : Nat) (e : Int)
    (htok : s._access_token = some t) (hexp : s._token_expiry = some e)
    (hrl : s._rate_limit_reset = none)
    (hresp : ∀ r ∈ s.dataResponses, isSuccess r.status = true ∧ r.ratelimitReset = none)
    (hg : ∀ g ∈ gaps, 0 ≤ g)
    (hwin : s.now + gaps.sum < e)
    (hlen : gaps.length ≤ s.dataResponses.length) :
    exchangeCount (runCalls gaps s).trace = exchangeCount s.trace ∧
      (runCalls gaps s)._access_token = some t ∧
      (runCalls gaps s)._token_expiry = some e := by
  induction gaps generalizing s with
  | nil => exact ⟨rfl, htok, hexp⟩
  | cons g gs ih =>
    cases hd : s.dataResponses with
    | nil =>
      rw [hd] at hlen
      simp at hlen
    | cons r rest =>
      have hr := hresp r (by rw [hd]; exact List.mem_cons_self r rest)
      have h0 : 0 ≤ gs.sum :=
        List.sum_nonneg (fun x hx => hg x (List.mem_cons_of_mem g hx))
      have hgg := hg g (List.mem_cons_self g gs)
      rw [List.sum_cons] at hwin
      have hnr : needsRefresh { s with now := s.now + g } = false := by
        simp [needsRefresh, htok, hexp]
        omega
      have hstep := request_success_step { s with now := s.now + g } r rest
        hnr hrl hd hr.1 hr.2
      have hgs : get_streams [] [] { s with now := s.now + g } =
          _request 0 { s with now := s.now + g } := rfl
      have hrun : runCalls (g :: gs) s =
          runCalls gs
            { s with
                now := s.now + g,
                dataResponses := rest,
                trace := .dispatch (s.now + g) r.status :: s.trace } := by
        show runCalls gs (get_streams [] [] { s with now := s.now + g }).2 = _
        rw [hgs, hstep]
      rw [hrun]
      obtain ⟨ihe, iht, ihx⟩ := ih
        { s with
            now := s.now + g,
            dataResponses := rest,
            trace := .dispatch (s.now + g) r.status :: s.trace }
        htok hexp hrl
        (fun r2 hr2 => hresp r2 (by rw [hd]; exact List.mem_cons_of_mem r hr2))
        (fun x hx => hg x (List.mem_cons_of_mem g hx))
        (by dsimp only; omega)
        (by
          rw [hd] at hlen
          simpa using hlen)
      refine ⟨?_, iht, ihx⟩
      rw [ihe]
      simp

/-- C4: a token exchange is performed exactly when no token is stored or
`now >= expiresAt` at the moment a token is requested (otherwise the cached
token is returned and the state is untouched); a successful exchange stores
`expiresAt = now + providerTTL - 300`; and a whole sequence of calls within
the stored token's validity window issues no further exchange and keeps
reusing the cached token. -/
theorem C4_token_lifecycle :
    (∀ s : St, s.tokenResponses ≠ [] →
      ((s._access_token = none ∨ ∃ e, s._token_expiry = some e ∧ e ≤ s.now) →
        exchangeCount (_get_valid_access_token s).2.trace =
          exchangeCount s.trace + 1) ∧
      (¬ (s._access_token = none ∨ ∃ e, s._token_expiry = some e ∧ e ≤ s.now) →
        _get_valid_access_token s = (.ok (s._access_token.getD 0), s))) ∧
    (∀ (s : St) (tr : TokenResponse) (trs : List TokenResponse),
      s.tokenResponses = tr :: trs → isSuccess tr.status = true →
      (s._access_token = none ∨ ∃ e, s._token_expiry = some e ∧ e ≤ s.now) →
      (_get_valid_access_token s).2._access_token = some tr.access_token ∧
        (_get_valid_access_token s).2._token_expiry =
          some (s.now + (tr.expires_in - 300))) ∧
    (∀ (gaps : List Int) (s : St) (t : Nat) (e : Int),
      s._access_token = some t → s._token_expiry = some e →
      s._rate_limit_reset = none →
      (∀ r ∈ s.dataResponses, isSuccess r.status = true ∧ r.ratelimitReset = none) →
      (∀ g ∈ gaps, 0 ≤ g) → s.now + gaps.sum < e →
      gaps.length ≤ s.dataResponses.length →
      exchangeCount (runCalls gaps s).trace = exchangeCount s.trace ∧
        (runCalls gaps s)._access_token = some t) := by
  refine ⟨?_, ?_, ?_⟩
  · intro s hne
    constructor
    · intro hcond
      have hnr : needsRefresh s = true := (needsRefresh_iff s).2 hcond
      unfold _get_valid_access_token
      rw [hnr]
      simp only [if_true]
      unfold _get_access_token
      split
      · rename_i heq
        exact absurd heq hne
      · rename_i tr trs heq
        split
        · simp
        · simp
    · intro hcond
      have hnr : needsRefresh s = false := by
        cases h2 : needsRefresh s
        · rfl
        · exact absurd ((needsRefresh_iff s).1 h2) hcond
      exact getValid_noRefresh s hnr
  · intro s tr trs htr hok hcond
    have hnr : needsRefresh s = true := (needsRefresh_iff s).2 hcond
    rw [getValid_refresh_ok s tr trs hnr htr hok]
    exact ⟨rfl, rfl⟩
  · intro gaps s t e htok hexp hrl hresp hg hwin hlen
    have h := runCalls_cached gaps s t e htok hexp hrl hresp hg hwin hlen
    exact ⟨h.1, h.2.1⟩

/-- C4, witness: the three parts applied at `c4empty` (absent token: one
exchange, with the 300-second safety margin) and `c4valid` (valid token: no
exchange on a call, and none across a two-call sequence 5 and 10 seconds
later). -/
theorem C4_witness :
    (exchangeCount (_get_valid_access_token c4empty).2.trace =
        exchangeCount c4empty.trace + 1) ∧
      (_get_valid_access_token c4valid = (.ok 9, c4valid)) ∧
      ((_get_valid_access_token c4empty).2._access_token = some 5 ∧
        (_get_valid_access_token c4empty).2._token_expiry =
          some (0 + (3900 - 300))) ∧
      (exchangeCount (runCalls [5, 10] c4valid).trace =
          exchangeCount c4valid.trace ∧
        (runCalls [5, 10] c4valid)._access_token = some 9) :=
  ⟨(C4_token_lifecycle.1 c4empty (by decide)).1 (.inl rfl),
    (C4_token_lifecycle.1 c4valid (by decide)).2
      (by
        rintro (h | ⟨e, he, hle⟩)
        · exact Option.noConfusion h
        · injection he with he2
          rw [← he2] at hle
          exact absurd hle (by decide)),
    C4_token_lifecycle.2.1 c4empty (okTok 5) [] rfl rfl (.inl rfl),
    C4_token_lifecycle.2.2 [5, 10] c4valid 9 500 rfl rfl rfl (by decide)
      (by decide) (by decide) (by decide)⟩

/-- If the response carries the reset header and the post-dispatch state
already holds it, every branch of the status handler preserves it. -/
theorem handleStatus_reset_some (rc : Nat) (resp : Response) (s4 : St) (ts : Int)
    (hts : resp.ratelimitReset = some ts) (hs4 : s4._rate_limit_reset = some ts) :
    (handleStatus rc resp s4).2._rate_limit_reset = some ts := by
  unfold handleStatus
  split
  · exact hs4
  · split
    · exact hs4
    · split
      · split
        · rw [reset429_some resp s4 ts hts]
        · rw [reset429_some resp s4 ts hts]
      · exact hs4

/-- A headerless 429 installs the 60-second fallback deadline, measured
from the handler's input state, in every 429 branch. -/
theorem handleStatus_reset_none429 (rc : Nat) (resp : Response) (s4 : St)
    (hn : resp.ratelimitReset = none) (hst : resp.status = 429) :
    (handleStatus rc resp s4).2._rate_limit_reset = some (s4.now + 60) := by
  rcases Nat.lt_or_ge rc 2 with h | h
  · rw [handleStatus_429_retry rc resp s4 hst h]
    rw [reset429_none resp s4 hn]
  · rw [handleStatus_429_fail rc resp s4 hst (by omega)]
    rw [reset429_none resp s4 hn]

/-- C5: on any dispatch attempt, a response carrying the reset header
updates `_rate_limit_reset` to that value whatever the status (success or
any failure); a 429 without the header installs the fallback deadline of 60
seconds from the dispatch time. -/
theorem C5_reset_recording (rc : Nat) (s : St) (tok : Nat) (s1 : St)
    (resp : Response) (rest : List Response)
    (hf : _get_valid_access_token s = (.ok tok, s1))
    (hd : s1.dataResponses = resp :: rest) :
    (∀ ts : Int, resp.ratelimitReset = some ts →
      (attemptOnce rc s).2._rate_limit_reset = some ts) ∧
      (resp.ratelimitReset = none → resp.status = 429 →
        (attemptOnce rc s).2._rate_limit_reset = some ((rlWait s1).now + 60)) := by
  have ha := attemptOnce_eq_handle rc s tok s1 resp rest hf hd
  constructor
  · intro ts hts
    rw [ha]
    refine handleStatus_reset_some rc resp _ ts hts ?_
    rw [recordHeader_some resp _ ts hts]
  · intro hn hst
    rw [ha]
    rw [handleStatus_reset_none429 rc resp _ hn hst]
    simp

/-- C5, witness: a failure response with the header installs it; a
headerless 429 installs the 60-second fallback. -/
theorem C5_witness :
    (attemptOnce 0 c5some).2._rate_limit_reset = some 77 ∧
      (attemptOnce 0 c5none).2._rate_limit_reset = some ((rlWait c5none).now + 60) :=
  ⟨(C5_reset_recording 0 c5some 1 c5some ⟨404, some 77⟩ [] rfl rfl).1 77 rfl,
    (C5_reset_recording 0 c5none 1 c5none ⟨429, none⟩ [] rfl rfl).2 rfl rfl⟩

/-- C6: `get_users` with both filter collections empty fails with the
argument error and leaves the whole state (credential, deadlines, stimulus
lists, trace) untouched; with at least one non-empty collection it proceeds
straight to the dispatcher. -/
theorem C6_argument_validation :
    (∀ s : St, get_users [] [] s = (.error .invalidArgument, s)) ∧
      (∀ (user_ids user_logins : List String) (s : St),
        user_ids ≠ [] ∨ user_logins ≠ [] →
        get_users user_ids user_logins s = _request 0 s) := by
  constructor
  · intro s
    rfl
  · intro ids logins s h
    have hne : usersParams ids logins ≠ [] := by
      rcases h with h | h <;> simp [usersParams, h]
    unfold get_users
    rw [if_neg hne]

/-- C6, witness: both parts of the theorem applied at `c6state`. -/
theorem C6_witness :
    get_users [] [] c6state = (.error .invalidArgument, c6state) ∧
      get_users ["123"] [] c6state = _request 0 c6state :=
  ⟨C6_argument_validation.1 c6state,
    C6_argument_validation.2 ["123"] [] c6state (.inl (by simp))⟩

/-- The status handler adds no trace event other than the retry sleep. -/
theorem handleStatus_trace_mem (rc : Nat) (resp : Response) (s4 : St) (ev : Event)
    (h : ev ∈ (handleStatus rc resp s4).2.trace) :
    ev = .sleepRetry 1 ∨ ev ∈ s4.trace := by
  unfold handleStatus at h
  split at h
  · exact .inr h
  · split at h
    · exact .inr h
    · split at h
      · split at h
        · simp only [reset429_trace, List.mem_cons] at h
          rcases h with h | h
          · exact .inl h
          · exact .inr h
        · simp only [reset429_trace] at h
          exact .inr h
      · exact .inr h

/-- C7: when the stored reset deadline `T` lies in the future at the moment
of an attempt, any dispatch recorded by that attempt happens no earlier
than `T + 1` (the deadline plus the 1-second buffer); pre-existing dispatch
records are untouched. -/
theorem C7_wait_before_dispatch (rc : Nat) (s : St) (tok : Nat) (s1 : St) (T : Int)
    (hf : _get_valid_access_token s = (.ok tok, s1))
    (hT : s1._rate_limit_reset = some T) (hnow : s1.now < T) :
    ∀ (t : Int) (st : Nat), Event.dispatch t st ∈ (attemptOnce rc s).2.trace →
      Event.dispatch t st ∈ s1.trace ∨ T + 1 ≤ t := by
  intro t st hmem
  unfold attemptOnce at hmem
  rw [hf] at hmem
  dsimp only at hmem
  rw [rlWait_of_future s1 T hT hnow] at hmem
  split at hmem
  · simp only [List.mem_cons] at hmem
    rcases hmem with h | h
    · exact absurd h (by simp)
    · exact .inl h
  · rcases handleStatus_trace_mem _ _ _ _ hmem with h | h
    · exact absurd h (by simp)
    · simp only [recordHeader_trace, List.mem_cons] at h
      rcases h with h | h | h
      · injection h with h1 h2
        right
        omega
      · exact absurd h (by simp)
      · exact .inl h

/-- C7, witness: the theorem applied at `c7state` (deadline 30, buffer 1)
to the dispatch event `Event.dispatch 31 200` that the attempt actually
records, whose membership in the resulting trace is discharged by
evaluation. -/
theorem C7_witness :
    Event.dispatch 31 200 ∈ c7state.trace ∨ (30 : Int) + 1 ≤ 31 :=
  C7_wait_before_dispatch 0 c7state 1 c7state 30 rfl rfl (by decide) 31 200
    (by decide)

/-- C8, counterexample: a call that starts with no stored token surfaces
the 404 immediately, but the stored credential is NOT left unchanged by the
call: the proactive acquisition on the way in replaced it (absent before,
`some 7` with a fresh expiry after) — refuting "the stored credential
(access token and its expiry) is left unchanged by the call". -/
theorem C8_cex :
    (get_users ["x"] [] c8empty).1 = .error (.dataHttp 404) ∧
      (get_users ["x"] [] c8empty).2._access_token ≠ c8empty._access_token ∧
      (get_users ["x"] [] c8empty).2._token_expiry ≠ c8empty._token_expiry := by
  have e1 : attemptOnce 0 c8empty =
      (.failed (.dataHttp 404), (attemptOnce 0 c8empty).2) := rfl
  have r1 := request_step_failed 0 c8empty _ _ e1
  have hg : get_users ["x"] [] c8empty = _request 0 c8empty := rfl
  rw [hg, r1]
  exact ⟨rfl, by decide, by decide⟩

/-- C8, amended: when the stored credential is valid at the start of the
call, a 404 response is surfaced immediately with no retry and both
credential fields are left unchanged (only the proactive token acquisition
of a call that starts without a valid token may change them). -/
theorem C8_not_found (s : St) (t : Nat) (e : Int) (resp : Response)
    (rest : List Response)
    (htok : s._access_token = some t) (hexp : s._token_expiry = some e)
    (hnow : s.now < e) (hd : s.dataResponses = resp :: rest)
    (hst : resp.status = 404) :
    (_request 0 s).1 = .error (.dataHttp 404) ∧
      (_request 0 s).2._access_token = some t ∧
      (_request 0 s).2._token_expiry = some e ∧
      (_request 0 s).2.dataResponses = rest ∧
      dispatchCount (_request 0 s).2.trace = dispatchCount s.trace + 1 := by
  have hnr := needsRefresh_false_of_valid s t e htok hexp hnow
  have hf := getValid_noRefresh s hnr
  have ha := attemptOnce_eq_handle 0 s (s._access_token.getD 0) s resp rest hf hd
  rw [handleStatus_raise 0 resp _ (by simp [hst, isSuccess])
    (by
      rintro ⟨hc, -⟩
      rw [hst] at hc
      exact absurd hc (by decide))
    (by rw [hst]; decide)] at ha
  rw [hst] at ha
  have hreq := request_step_failed 0 s _ _ ha
  rw [hreq]
  dsimp only
  exact ⟨rfl, by simp [htok], by simp [hexp], by simp, by simp⟩

/-- C8, witness: the amended theorem applied at `c8valid`. -/
theorem C8_witness :
    (_request 0 c8valid).1 = .error (.dataHttp 404) ∧
      (_request 0 c8valid).2._access_token = some 1 ∧
      (_request 0 c8valid).2._token_expiry = some 1000 ∧
      (_request 0 c8valid).2.dataResponses = [] ∧
      dispatchCount (_request 0 c8valid).2.trace = dispatchCount c8valid.trace + 1 :=
  C8_not_found c8valid 1 1000 ⟨404, none⟩ [] rfl rfl (by decide) rfl rfl

/-- C9: a public call records at most three dispatch attempts in total,
across all failure causes combined, because the single shared `retry_count`
strictly increases on every retry and is compared against 1 (for 401) and
2 (for 429); the retry recursion in `_request` is total (it is accepted by
the termination checker with measure `2 - retry_count`). -/
theorem C9_attempt_bound (user_ids user_logins : List String) (s : St) :
    dispatchCount (get_users user_ids user_logins s).2.trace ≤
        dispatchCount s.trace + 3 ∧
      dispatchCount (get_streams user_ids user_logins s).2.trace ≤
        dispatchCount s.trace + 3 := by
  have h := request_dispatch_le 0 s
  constructor
  · unfold get_users
    split
    · dsimp only
      omega
    · omega
  · show dispatchCount (_request 0 s).2.trace ≤ dispatchCount s.trace + 3
    omega

/-- C10: `_get_access_token` is atomic with respect to the credential: a
failed exchange raises before any assignment, leaving both the token and
its expiry exactly as they were; a successful exchange replaces both
together. -/
theorem C10_exchange_atomic (s : St) (r : TokenResponse)
    (rest : List TokenResponse) (h : s.tokenResponses = r :: rest) :
    (isSuccess r.status = false →
      (_get_access_token s).1 = .error (.tokenHttp r.status) ∧
        (_get_access_token s).2._access_token = s._access_token ∧
        (_get_access_token s).2._token_expiry = s._token_expiry) ∧
      (isSuccess r.status = true →
        (_get_access_token s).1 = .ok r.access_token ∧
          (_get_access_token s).2._access_token = some r.access_token ∧
          (_get_access_token s).2._token_expiry =
            some (s.now + (r.expires_in - 300))) := by
  unfold _get_access_token
  rw [h]
  dsimp only
  constructor
  · intro hf
    rw [if_neg (by simp [hf])]
    exact ⟨rfl, rfl, rfl⟩
  · intro ht
    rw [if_pos ht]
    exact ⟨rfl, rfl, rfl⟩

/-- C10, witness: the theorem applied at `c10fail` (fields preserved) and
`c10ok` (both fields replaced together). -/
theorem C10_witness :
    ((_get_access_token c10fail).1 = .error (.tokenHttp 503) ∧
        (_get_access_token c10fail).2._access_token = c10fail._access_token ∧
        (_get_access_token c10fail).2._token_expiry = c10fail._token_expiry) ∧
      ((_get_access_token c10ok).1 = .ok 42 ∧
        (_get_access_token c10ok).2._access_token = some 42 ∧
        (_get_access_token c10ok).2._token_expiry = some (7 + (3600 - 300))) :=
  ⟨(C10_exchange_atomic c10fail ⟨503, 0, 0⟩ [] rfl).1 rfl,
    (C10_exchange_atomic c10ok ⟨200, 42, 3600⟩ [] rfl).2 rfl⟩
